import Mathlib

/-!
Verification of the HTML content fetcher actor (src/main.py) against its
natural-language specification.

The development shallowly embeds the three components of the pipeline:

* `extract_price_from_html` — the field extractor (src/main.py, lines 28-78);
* `isNotFoundPage` — the content-based validity classifier
  (`_is_not_found_page`, lines 81-151);
* `mainRecord` — the orchestrator branching of `main` (lines 154-373), i.e.
  the function from the actor input and the outcome of the single HTTP
  attempt to the one structured record pushed to the dataset.

HTML documents are modelled as rose trees of elements and text nodes; the
BeautifulSoup operations the source uses (`find` by tag/class/attribute in
document order, `get_text` with and without `strip=True`) are embedded as
recursive functions over those trees.  Parsing the body string into a tree
is the only fallible operation the source's `try`/`except` blocks guard, so
both guarded functions take the parse outcome as an `Except` value; the
`except` arms of the source become the `.error` branches.
-/

/-- A parsed HTML node: either a text node or an element with a tag name,
its list of classes, an optional data-testid attribute, and children. -/
inductive Node where
  | text : String → Node
  | elem : String → List String → Option String → List Node → Node

/-- Children of a node (a text node has none). -/
def Node.children : Node → List Node
  | .text _ => []
  | .elem _ _ _ ch => ch

/-- Python's `str.strip()`: leading and trailing whitespace removed
(structural on the character list so that terms evaluate by reduction). -/
def strStrip (s : String) : String :=
  String.mk (((s.data.dropWhile Char.isWhitespace).reverse.dropWhile
    Char.isWhitespace).reverse)

/-- Python's `str.lower()`, on the character list. -/
def strLower (s : String) : String :=
  String.mk (s.data.map Char.toLower)

/-- Whether the pattern occurs as a contiguous run inside the character
list (the embedding of Python's `in` operator on strings). -/
def charsContains (pat : List Char) : List Char → Bool
  | [] => pat.isEmpty
  | c :: rest => List.isPrefixOf pat (c :: rest) || charsContains pat rest

/-- Whether `pat` occurs as a substring of `s` (Python `pat in s`). -/
def strContains (s pat : String) : Bool :=
  charsContains pat.data s.data

mutual

/-- Depth-first, document-order search for the first element whose tag,
classes and data-testid satisfy the predicate; text nodes never match,
exactly as BeautifulSoup's tag-filtered `find`. -/
def findDescNode (p : String → List String → Option String → Bool) : Node → Option Node
  | .text _ => none
  | .elem t c d ch =>
    if p t c d then some (Node.elem t c d ch) else findDescList p ch

def findDescList (p : String → List String → Option String → Bool) : List Node → Option Node
  | [] => none
  | n :: rest =>
    match findDescNode p n with
    | some m => some m
    | none => findDescList p rest

end

/-- The entry point used by the embeddings below. -/
def findDesc (p : String → List String → Option String → Bool)
    (ns : List Node) : Option Node :=
  findDescList p ns

mutual

/-- All descendant text fragments of a node, in document order. -/
def nodeTexts : Node → List String
  | .text s => [s]
  | .elem _ _ _ ch => nodesTexts ch

/-- All descendant text fragments of a list of nodes, in document order. -/
def nodesTexts : List Node → List String
  | [] => []
  | n :: rest => nodeTexts n ++ nodesTexts rest

end

/-- BeautifulSoup `get_text()` — concatenation of all text fragments. -/
def getText (n : Node) : String :=
  String.join (nodeTexts n)

/-- BeautifulSoup `get_text(strip=True)` — each text fragment stripped of
outer whitespace, then concatenated. -/
def getTextStrip (n : Node) : String :=
  String.join ((nodeTexts n).map strStrip)

/-- Predicate of the primary lookup `soup.find('div', {'class':
'x-price-primary', 'data-testid': 'x-price-primary'})`. -/
def isPrimaryDiv (t : String) (c : List String) (d : Option String) : Bool :=
  t == "div" && c.contains "x-price-primary" && d == some "x-price-primary"

/-- Predicate of the fallback lookup `soup.find(class_='x-price-primary')`
(any tag, data-testid not required). -/
def hasPrimaryClass (_t : String) (c : List String) (_d : Option String) : Bool :=
  c.contains "x-price-primary"

/-- Predicate of `find('span', class_='ux-textspans')`. -/
def isUxSpan (t : String) (c : List String) (_d : Option String) : Bool :=
  t == "span" && c.contains "ux-textspans"

/-- Predicate of `soup.find('title')`. -/
def isTitleTag (t : String) (_c : List String) (_d : Option String) : Bool :=
  t == "title"

/-- The fallback half of the extractor (src/main.py lines 61-71): look for
any element carrying the `x-price-primary` class, prefer the text of a
`ux-textspans` descendant, else the element's own non-empty stripped text. -/
def altLookup (doc : List Node) : Option String :=
  match findDesc hasPrimaryClass doc with
  | some pe =>
    match findDesc isUxSpan pe.children with
    | some sp => some (getTextStrip sp)
    | none =>
      let t := getTextStrip pe
      if t ≠ "" then some t else none
  | none => none

/-- The extractor's strategy chain over an already-parsed document
(src/main.py lines 44-73): primary div with class and data-testid both
`x-price-primary`, preferring a `ux-textspans` descendant span, then the
element's own non-empty text, then the class-only fallback. -/
def extractPriceFromHtml (doc : List Node) : Option String :=
  match findDesc isPrimaryDiv doc with
  | some pe =>
    match findDesc isUxSpan pe.children with
    | some sp => some (getTextStrip sp)
    | none =>
      let t := getTextStrip pe
      if t ≠ "" then some t else altLookup doc
  | none => altLookup doc

/-- `extract_price_from_html` (src/main.py lines 28-78): the whole body is
wrapped in `try`/`except` returning `None`; parsing is the fallible step,
so the function takes the parse outcome and folds errors to `none`. -/
def extract_price_from_html (p : Except Unit (List Node)) : Option String :=
  match p with
  | .error _ => none
  | .ok doc => extractPriceFromHtml doc

/-- The generic "not found" phrase indicators (src/main.py lines 96-113). -/
def notFoundIndicators : List String :=
  ["page not found", "item not found", "product not found",
   "listing not found", "404 error", "page does not exist",
   "item no longer available", "this listing has ended",
   "listing has been removed", "item has been removed",
   "no longer available", "page unavailable", "item unavailable",
   "access denied", "forbidden", "page not available"]

/-- The eBay-specific indicators (src/main.py lines 116-124). -/
def ebayNotFoundIndicators : List String :=
  ["we looked everywhere", "couldn\x27t find that page", "listing was ended",
   "item you requested could not be found",
   "this listing is no longer available", "item has ended",
   "page cannot be found"]

/-- `all_indicators = not_found_indicators + ebay_not_found_indicators`. -/
def allIndicators : List String :=
  notFoundIndicators ++ ebayNotFoundIndicators

/-- The title indicators (src/main.py line 142). -/
def titleIndicators : List String :=
  ["404", "not found", "error", "unavailable", "forbidden"]

/-- `_is_not_found_page` (src/main.py lines 81-151): phrase scan over the
lower-cased body, then the short-body-and-200 length rule, then the title
scan over the parsed document.  The parse is the fallible step guarded by
the source's `try`/`except Exception: return False`, so a parse error at
the title step folds to `false` (the page is assumed valid). -/
def isNotFoundPage (html : String) (status : Nat) (doc : Except Unit (List Node)) : Bool :=
  if allIndicators.any (fun ind => strContains (strLower html) ind) then true
  else if (strStrip html).length < 500 && status == 200 then true
  else
    match doc with
    | .error _ => false
    | .ok nodes =>
      match findDesc isTitleTag nodes with
      | some title =>
        titleIndicators.any (fun ind => strContains (strLower (getText title)) ind)
      | none => false

/-- The resolved actor input (src/main.py lines 162-185): `url` as read
from the input mapping (`none` models a missing key), and the optional
parameters after their defaults have been applied. -/
structure ActorInput where
  url : Option String
  timeout : Nat
  followRedirects : Bool
  userAgent : String

/-- The data captured from one HTTP response (src/main.py lines 199-205). -/
structure HttpResponse where
  statusCode : Nat
  headers : List (String × String)
  body : String
  finalUrl : String

/-- How the single fetch attempt ends (src/main.py lines 190-373): a
response (paired with the parse outcome of its body, consumed by the
classifier and the extractor), a `TimeoutException`, an `HTTPError`
carrying its description and the status code recovered from the
exception's response when present, or any other exception. -/
inductive FetchEvent where
  | response : HttpResponse → Except Unit (List Node) → FetchEvent
  | timeoutExc : FetchEvent
  | httpErrorExc : String → Option Nat → FetchEvent
  | unexpectedExc : String → FetchEvent

/-- The flat record pushed to the dataset.  A field is `none` both when the
source sets the key to `None` and when the branch omits the key. -/
structure ResultRecord where
  success : Bool
  error : Option String
  url : Option String
  finalUrl : Option String
  htmlContent : Option String
  price : Option String
  priceFound : Bool
  statusCode : Option Nat
  headers : Option (List (String × String))
  contentLength : Option Nat
  contentType : Option String
  pageExists : Bool
deriving DecidableEq

/-- `headers.get('content-type', 'unknown')`. -/
def getContentType (hs : List (String × String)) : String :=
  match hs.find? (fun kv => kv.1 == "content-type") with
  | some kv => kv.2
  | none => "unknown"

/-- The record for a missing or empty `url` (src/main.py lines 166-180). -/
def recordMissingUrl : ResultRecord :=
  { success := false, error := some "Missing \"url\" attribute in input!",
    url := none, finalUrl := none, htmlContent := none, price := none,
    priceFound := false, statusCode := none, headers := none,
    contentLength := none, contentType := none, pageExists := false }

/-- The 404 record (src/main.py lines 212-226). -/
def record404 (u : String) (resp : HttpResponse) : ResultRecord :=
  { success := false, error := some "Page not found (404)",
    url := some u, finalUrl := some resp.finalUrl, htmlContent := none,
    price := none, priceFound := false, statusCode := some resp.statusCode,
    headers := none, contentLength := none,
    contentType := some (getContentType resp.headers), pageExists := false }

/-- The 403/410/451 record (src/main.py lines 228-243). -/
def recordBlocked (u : String) (resp : HttpResponse) : ResultRecord :=
  { success := false,
    error := some ("Page unavailable (HTTP " ++ toString resp.statusCode ++ ")"),
    url := some u, finalUrl := some resp.finalUrl, htmlContent := none,
    price := none, priceFound := false, statusCode := some resp.statusCode,
    headers := none, contentLength := none,
    contentType := some (getContentType resp.headers), pageExists := false }

/-- The generic client/server error record (src/main.py lines 245-260):
bodies under 10000 characters are kept as `html_content` for diagnostics. -/
def recordGenericError (u : String) (resp : HttpResponse) : ResultRecord :=
  { success := false,
    error := some ("Client/Server error (HTTP " ++ toString resp.statusCode ++ ")"),
    url := some u, finalUrl := some resp.finalUrl,
    htmlContent := if resp.body.length < 10000 then some resp.body else none,
    price := none, priceFound := false, statusCode := some resp.statusCode,
    headers := none, contentLength := none,
    contentType := some (getContentType resp.headers), pageExists := false }

/-- The content-based not-found record (src/main.py lines 262-277). -/
def recordNotFoundContent (u : String) (resp : HttpResponse) : ResultRecord :=
  { success := false,
    error := some "Page not found or unavailable (detected from content)",
    url := some u, finalUrl := some resp.finalUrl, htmlContent := none,
    price := none, priceFound := false, statusCode := some resp.statusCode,
    headers := none, contentLength := none,
    contentType := some (getContentType resp.headers), pageExists := false }

/-- The price-found record (src/main.py lines 284-297). -/
def recordPrice (u : String) (resp : HttpResponse) (p : String) : ResultRecord :=
  { success := true, error := none, url := some u,
    finalUrl := some resp.finalUrl, htmlContent := none, price := some p,
    priceFound := true, statusCode := some resp.statusCode, headers := none,
    contentLength := none, contentType := some (getContentType resp.headers),
    pageExists := true }

/-- The full-content record (src/main.py lines 298-314). -/
def recordContent (u : String) (resp : HttpResponse) : ResultRecord :=
  { success := true, error := none, url := some u,
    finalUrl := some resp.finalUrl, htmlContent := some resp.body,
    price := none, priceFound := false, statusCode := some resp.statusCode,
    headers := some resp.headers, contentLength := some resp.body.length,
    contentType := some (getContentType resp.headers), pageExists := true }

/-- The timeout record (src/main.py lines 321-337). -/
def recordTimeout (input : ActorInput) (u : String) : ResultRecord :=
  { success := false,
    error := some ("Request timeout after " ++ toString input.timeout ++ " seconds"),
    url := some u, finalUrl := none, htmlContent := none, price := none,
    priceFound := false, statusCode := none, headers := none,
    contentLength := some 0, contentType := none, pageExists := false }

/-- The `HTTPError` record (src/main.py lines 339-355). -/
def recordHttpError (u : String) (desc : String) (code : Option Nat) : ResultRecord :=
  { success := false, error := some ("HTTP error occurred: " ++ desc),
    url := some u, finalUrl := none, htmlContent := none, price := none,
    priceFound := false, statusCode := code, headers := none,
    contentLength := some 0, contentType := none, pageExists := false }

/-- The unexpected-exception record (src/main.py lines 357-373). -/
def recordUnexpected (u : String) (desc : String) : ResultRecord :=
  { success := false, error := some ("Unexpected error occurred: " ++ desc),
    url := some u, finalUrl := none, htmlContent := none, price := none,
    priceFound := false, statusCode := none, headers := none,
    contentLength := some 0, contentType := none, pageExists := false }

/-- The orchestrator branching after a response is received (src/main.py
lines 212-317): status-code branches first, then the content classifier,
then the extractor; `if extracted_price:` is Python truthiness, so an
empty extracted string also falls to the content record. -/
def processResponse (u : String) (resp : HttpResponse)
    (doc : Except Unit (List Node)) : ResultRecord :=
  if resp.statusCode == 404 then record404 u resp
  else if [403, 410, 451].contains resp.statusCode then recordBlocked u resp
  else if 400 ≤ resp.statusCode then recordGenericError u resp
  else if isNotFoundPage resp.body resp.statusCode doc then
    recordNotFoundContent u resp
  else
    match extract_price_from_html doc with
    | some p => if p = "" then recordContent u resp else recordPrice u resp p
    | none => recordContent u resp

/-- Dispatch on how the fetch attempt ended (src/main.py lines 190-373). -/
def processEvent (input : ActorInput) (u : String) : FetchEvent → ResultRecord
  | .response resp doc => processResponse u resp doc
  | .timeoutExc => recordTimeout input u
  | .httpErrorExc desc code => recordHttpError u desc code
  | .unexpectedExc desc => recordUnexpected u desc

/-- The record `main` pushes for one invocation (src/main.py lines
154-373): the `if not url:` guard treats a missing and an empty `url` the
same way and performs no fetch, so the event is ignored there. -/
def mainRecord (input : ActorInput) (ev : FetchEvent) : ResultRecord :=
  match input.url with
  | none => recordMissingUrl
  | some u => if u = "" then recordMissingUrl else processEvent input u ev

/-- The classification verdict of the spec, read off the orchestrator's
status branches combined with the content classifier. -/
inductive Verdict where
  | Valid
  | NotFoundStatus
  | BlockedStatus
  | ServerOrClientError
  | NotFoundByContent
deriving DecidableEq

/-- The verdict the orchestrator's branching assigns to a response
(src/main.py lines 212-278): status rules first, then the content rules. -/
def classify (status : Nat) (body : String) (doc : Except Unit (List Node)) : Verdict :=
  if status == 404 then .NotFoundStatus
  else if [403, 410, 451].contains status then .BlockedStatus
  else if 400 ≤ status then .ServerOrClientError
  else if isNotFoundPage body status doc then .NotFoundByContent
  else .Valid

/-! Concrete fixtures used by witnesses and counterexamples. -/

/-- HTML document of spec §8: a fallback-only marker (class but no
data-testid) wrapping a `ux-textspans` span with text `€9`. -/
def fallbackDoc : List Node :=
  [Node.elem "div" ["x-price-primary"] none
    [Node.elem "span" ["ux-textspans"] none [Node.text "€9"]]]

/-- A primary marker whose `ux-textspans` descendant has empty text. -/
def emptySpanDoc : List Node :=
  [Node.elem "div" ["x-price-primary"] (some "x-price-primary")
    [Node.elem "span" ["ux-textspans"] none []]]

/-- A primary marker with no `ux-textspans` descendant and only
whitespace text. -/
def emptyTextDiv : Node :=
  Node.elem "div" ["x-price-primary"] (some "x-price-primary") [Node.text "   "]

/-- The document holding just `emptyTextDiv`. -/
def emptyTextDoc : List Node :=
  [emptyTextDiv]

/-- A primary marker wrapping a span with the price `$12.34`
(spec §8's first extractor example). -/
def priceDoc : List Node :=
  [Node.elem "div" ["x-price-primary"] (some "x-price-primary")
    [Node.elem "span" ["ux-textspans"] none [Node.text "$12.34"]]]

/-- An input with a well-formed `url`. -/
def okInput : ActorInput :=
  { url := some "http://example.test/item", timeout := 45,
    followRedirects := true, userAgent := "ua" }

/-- An input whose `url` key is missing. -/
def missingInput : ActorInput :=
  { url := none, timeout := 30, followRedirects := true, userAgent := "ua" }

/-- A 500 response with a short body, exercising the diagnostic
`html_content` of the generic error branch. -/
def err500Resp : HttpResponse :=
  { statusCode := 500, headers := [], body := "oops", finalUrl := "http://example.test/item" }

/-- A 410 response, exercising the blocked branch. -/
def goneResp : HttpResponse :=
  { statusCode := 410, headers := [], body := "<html>gone</html>",
    finalUrl := "http://example.test/item" }

/-- A 200 response with a short body, exercising the length rule. -/
def shortResp : HttpResponse :=
  { statusCode := 200, headers := [], body := "tiny page",
    finalUrl := "http://example.test/item" }

/-- A 500-character body of a single repeated letter: long enough to
escape the length rule and free of every phrase indicator. -/
def longBody : String :=
  String.mk (List.replicate 500 'q')

/-- A 200 response carrying `longBody`, exercising the valid branch. -/
def longResp : HttpResponse :=
  { statusCode := 200, headers := [], body := longBody,
    finalUrl := "http://example.test/item" }

/-! Helper lemmas. -/

/-- Appending to a non-empty string yields a non-empty string. -/
theorem append_ne_empty (a b : String) (h : a.data ≠ []) : a ++ b ≠ "" := by
  intro hab
  have h2 := congrArg String.data hab
  rw [String.data_append] at h2
  exact h (List.append_eq_nil.mp h2).1

/-- Non-emptiness of the character list survives appending on the right. -/
theorem data_ne_nil_append (a b : String) (h : a.data ≠ []) : (a ++ b).data ≠ [] := by
  rw [String.data_append]
  intro hc
  exact h (List.append_eq_nil.mp hc).1

/-- Claim C6: given HTML whose only price marker carries the
`x-price-primary` class but no data-testid attribute and wraps a
`ux-textspans` span with text `€9`, the primary strategy finds nothing and
the extractor returns `€9` through the fallback strategy. -/
theorem fallback_marker_extracts_price :
    findDesc isPrimaryDiv fallbackDoc = none ∧
    extract_price_from_html (.ok fallbackDoc) = some "€9" :=
  ⟨rfl, by decide⟩

/-- Claim C2 fails on the code: a located primary price element whose
`ux-textspans` descendant has empty normalized text makes the extractor
return the empty string — the span's text is returned unconditionally,
not treated as a missed match. -/
theorem extract_price_empty_string_counterexample :
    extract_price_from_html (.ok emptySpanDoc) = some "" := by
  decide

/-- Claim C2 (amended): the emptiness check applies only to the located
element's own normalized text: when the located element (primary or
fallback) has no `ux-textspans` descendant and its own text is empty, the
strategy is treated as a miss, falling through to the fallback lookup and
ultimately to `none`; the `ux-textspans` descendant path, by contrast,
returns its text unconditionally, so an empty span text is returned as a
found empty price. -/
theorem empty_own_text_falls_through :
    (∀ (doc : List Node) (pe : Node), findDesc isPrimaryDiv doc = some pe →
      findDesc isUxSpan pe.children = none →
      getTextStrip pe = "" →
      extractPriceFromHtml doc = altLookup doc) ∧
    (∀ (doc : List Node) (pe : Node), findDesc hasPrimaryClass doc = some pe →
      findDesc isUxSpan pe.children = none →
      getTextStrip pe = "" →
      altLookup doc = none) := by
  constructor
  · intro doc pe h1 h2 h3
    unfold extractPriceFromHtml
    rw [h1]
    simp [h2, h3]
  · intro doc pe h1 h2 h3
    unfold altLookup
    rw [h1]
    simp [h2, h3]

/-- Witness for the amended claim C2 at a concrete document: a primary
marker with whitespace-only text and no span is a miss for both the
primary and the fallback strategy. -/
theorem empty_own_text_falls_through_witness :
    extractPriceFromHtml emptyTextDoc = altLookup emptyTextDoc ∧
    altLookup emptyTextDoc = none :=
  ⟨empty_own_text_falls_through.1 emptyTextDoc emptyTextDiv rfl rfl rfl,
   empty_own_text_falls_through.2 emptyTextDoc emptyTextDiv rfl rfl rfl⟩

/-- Claim C7: neither guarded component propagates a parse failure — the
extractor folds a parse error to `none`, and the classifier's content
rules fold a parse error reached at the title step (i.e. when neither the
phrase scan nor the length rule already fired) to `false`, the fail-open
verdict that lets the page count as valid. -/
theorem fail_open_on_parse_error :
    (∀ e : Unit, extract_price_from_html (.error e) = none) ∧
    (∀ (html : String) (status : Nat) (e : Unit),
      allIndicators.any (fun ind => strContains (strLower html) ind) = false →
      ((strStrip html).length < 500 && status == 200) = false →
      isNotFoundPage html status (.error e) = false) := by
  constructor
  · intro e
    rfl
  · intro html status e h1 h2
    unfold isNotFoundPage
    simp [h1, h2]

/-- Witness for claim C7: a parse failure on a three-letter body with a
non-200 status folds to `none` for the extractor and to `false` for the
classifier. -/
theorem fail_open_on_parse_error_witness :
    extract_price_from_html (.error ()) = none ∧
    isNotFoundPage "zzz" 201 (.error ()) = false :=
  ⟨fail_open_on_parse_error.1 (),
   fail_open_on_parse_error.2 "zzz" 201 () (by decide) (by decide)⟩

/-- Claim C5: a body containing the phrase `item not found` (after
lower-casing) is classified `NotFoundByContent` under status 200, whatever
its length and whatever the parse outcome. -/
theorem item_not_found_phrase_verdict (body : String) (doc : Except Unit (List Node))
    (h : strContains (strLower body) "item not found" = true) :
    isNotFoundPage body 200 doc = true ∧
    classify 200 body doc = .NotFoundByContent := by
  have hany : allIndicators.any (fun ind => strContains (strLower body) ind) = true :=
    List.any_eq_true.mpr ⟨"item not found", by decide, h⟩
  have hnf : isNotFoundPage body 200 doc = true := by
    unfold isNotFoundPage
    simp [hany]
  refine ⟨hnf, ?_⟩
  unfold classify
  simp [hnf]

/-- Witness for claim C5: a mixed-case occurrence of the phrase in a short
body is detected. -/
theorem item_not_found_phrase_verdict_witness :
    isNotFoundPage "Oy, ITEM NOT FOUND!" 200 (.ok []) = true ∧
    classify 200 "Oy, ITEM NOT FOUND!" (.ok []) = .NotFoundByContent :=
  item_not_found_phrase_verdict "Oy, ITEM NOT FOUND!" (.ok []) (by decide)

/-- Claim C4: a 200 response whose stripped body is under 500 characters
is classified `NotFoundByContent` (either the phrase scan or the length
rule fires), and the orchestrator emits the content-based not-found
record. -/
theorem short_body_200_not_found (input : ActorInput) (u : String)
    (resp : HttpResponse) (doc : Except Unit (List Node))
    (hu : input.url = some u) (hne : u ≠ "")
    (hs : resp.statusCode = 200) (hlen : (strStrip resp.body).length < 500) :
    classify resp.statusCode resp.body doc = .NotFoundByContent ∧
    mainRecord input (.response resp doc) = recordNotFoundContent u resp := by
  have hnf : isNotFoundPage resp.body resp.statusCode doc = true := by
    unfold isNotFoundPage
    by_cases hind : allIndicators.any (fun ind => strContains (strLower resp.body) ind) = true
    · simp [hind]
    · simp only [Bool.not_eq_true] at hind
      simp [hind, hs, hlen]
  rw [hs] at hnf ⊢
  constructor
  · unfold classify
    simp [hs, hnf]
  · simp [mainRecord, hu, hne, processEvent, processResponse, hs, hnf]

/-- Witness for claim C4: a nine-character 200 body yields the
content-based not-found record. -/
theorem short_body_200_not_found_witness :
    classify shortResp.statusCode shortResp.body (.ok []) = .NotFoundByContent ∧
    mainRecord okInput (.response shortResp (.ok [])) =
      recordNotFoundContent "http://example.test/item" shortResp :=
  short_body_200_not_found okInput "http://example.test/item" shortResp (.ok [])
    rfl (by decide) rfl (by decide)

/-- Claim C3: whatever the body, a response with status 403, 404, 410 or
451 yields a failure record with `page_exists` false and no HTML
content. -/
theorem excluded_status_record (input : ActorInput) (u : String)
    (resp : HttpResponse) (doc : Except Unit (List Node))
    (hu : input.url = some u) (hne : u ≠ "")
    (hs : resp.statusCode ∈ [403, 404, 410, 451]) :
    (mainRecord input (.response resp doc)).success = false ∧
    (mainRecord input (.response resp doc)).pageExists = false ∧
    (mainRecord input (.response resp doc)).htmlContent = none := by
  have hm : mainRecord input (.response resp doc) = processResponse u resp doc := by
    simp [mainRecord, hu, hne, processEvent]
  rw [hm]
  simp only [List.mem_cons, List.mem_singleton, List.not_mem_nil, or_false] at hs
  rcases hs with h | h | h | h <;>
    simp [processResponse, h, record404, recordBlocked]

/-- Witness for claim C3 at a concrete 410 response. -/
theorem excluded_status_record_witness :
    (mainRecord okInput (.response goneResp (.ok []))).success = false ∧
    (mainRecord okInput (.response goneResp (.ok []))).pageExists = false ∧
    (mainRecord okInput (.response goneResp (.ok []))).htmlContent = none :=
  excluded_status_record okInput "http://example.test/item" goneResp (.ok [])
    rfl (by decide) (by decide)

/-- Claim C8: a request that times out yields a failure record whose error
message embeds the configured timeout duration and whose status code is
absent. -/
theorem timeout_record_fields (input : ActorInput) (u : String)
    (hu : input.url = some u) (hne : u ≠ "") :
    (mainRecord input .timeoutExc).success = false ∧
    (mainRecord input .timeoutExc).error =
      some ("Request timeout after " ++ toString input.timeout ++ " seconds") ∧
    (mainRecord input .timeoutExc).statusCode = none := by
  simp [mainRecord, hu, hne, processEvent, recordTimeout]

/-- Witness for claim C8 with a configured timeout of 45 seconds. -/
theorem timeout_record_fields_witness :
    (mainRecord okInput .timeoutExc).success = false ∧
    (mainRecord okInput .timeoutExc).error = some "Request timeout after 45 seconds" ∧
    (mainRecord okInput .timeoutExc).statusCode = none :=
  timeout_record_fields okInput "http://example.test/item" rfl (by decide)

/-- Claim C9 fails on the code: the recorded message for a missing `url`
is `Missing "url" attribute in input!` — with quotation marks around the
key name — not the claim's unquoted `Missing url attribute in input!`. -/
theorem missing_url_message_counterexample :
    (mainRecord missingInput .timeoutExc).error =
      some "Missing \"url\" attribute in input!" ∧
    (mainRecord missingInput .timeoutExc).error ≠
      some "Missing url attribute in input!" := by
  decide

/-- Claim C9 (amended): when the `url` input is missing or empty, the
emitted record carries exactly the message `Missing "url" attribute in
input!` (quotation marks around the key included) with `page_exists`
false, and the record does not depend on the fetch — no request is
performed. -/
theorem missing_url_record_amended (input : ActorInput) (ev ev' : FetchEvent)
    (h : input.url = none ∨ input.url = some "") :
    (mainRecord input ev).error = some "Missing \"url\" attribute in input!" ∧
    (mainRecord input ev).pageExists = false ∧
    mainRecord input ev = mainRecord input ev' := by
  rcases h with h | h <;> simp [mainRecord, h, recordMissingUrl]

/-- Witness for the amended claim C9 at an input without a `url` key. -/
theorem missing_url_record_amended_witness :
    (mainRecord missingInput .timeoutExc).error =
      some "Missing \"url\" attribute in input!" ∧
    (mainRecord missingInput .timeoutExc).pageExists = false ∧
    mainRecord missingInput .timeoutExc =
      mainRecord missingInput (.unexpectedExc "boom") :=
  missing_url_record_amended missingInput .timeoutExc (.unexpectedExc "boom")
    (Or.inl rfl)

/-- Claim C1 fails on the code: the generic client/server-error branch
keeps a body under 10000 characters as `html_content` for diagnostics
while setting `page_exists` to false, so a record can carry HTML content
without the page existing. -/
theorem record_invariant_counterexample :
    (mainRecord okInput (.response err500Resp (.error ()))).htmlContent = some "oops" ∧
    (mainRecord okInput (.response err500Resp (.error ()))).pageExists ≠ true := by
  decide

/-- Claim C1 (amended): in every emitted record, `priceFound` implies the
HTML content is absent, and present HTML content implies the price is
absent; present HTML content implies `pageExists` except in the generic
HTTP-error record (status at least 400), which keeps a short body for
diagnostics with `pageExists` false. -/
theorem record_invariant_amended (input : ActorInput) (ev : FetchEvent) :
    ((mainRecord input ev).priceFound = true → (mainRecord input ev).htmlContent = none) ∧
    (∀ h, (mainRecord input ev).htmlContent = some h →
      (mainRecord input ev).price = none ∧
      ((mainRecord input ev).pageExists = true ∨
        ((mainRecord input ev).success = false ∧
          ∃ s, (mainRecord input ev).statusCode = some s ∧ 400 ≤ s))) := by
  rcases hin : input.url with _ | u
  · simp [mainRecord, hin, recordMissingUrl]
  · by_cases hu : u = ""
    · simp [mainRecord, hin, hu, recordMissingUrl]
    · have hm : ∀ e, mainRecord input e = processEvent input u e := by
        intro e
        simp [mainRecord, hin, hu]
      rw [hm]
      cases ev with
      | timeoutExc => simp [processEvent, recordTimeout]
      | httpErrorExc d c => simp [processEvent, recordHttpError]
      | unexpectedExc d => simp [processEvent, recordUnexpected]
      | response resp doc =>
        have hp : processEvent input u (FetchEvent.response resp doc) =
            processResponse u resp doc := rfl
        rw [hp]
        unfold processResponse
        split
        · simp [record404]
        · split
          · simp [recordBlocked]
          · split
            · rename_i h404 hblk hge
              refine ⟨by simp [recordGenericError], ?_⟩
              intro h hh
              refine ⟨?_, Or.inr ⟨?_, resp.statusCode, ?_, hge⟩⟩ <;>
                simp [recordGenericError]
            · split
              · simp [recordNotFoundContent]
              · rcases hext : extract_price_from_html doc with _ | p
                · simp [hext, recordContent]
                · by_cases hp : p = "" <;>
                    simp [hext, hp, recordContent, recordPrice]

set_option maxRecDepth 40000 in
/-- Witness for the amended claim C1: the price branch of a valid 200
response omits the HTML content, and the diagnostic body of a 500 record
comes with `success` false and a status of at least 400. -/
theorem record_invariant_amended_witness :
    (mainRecord okInput (.response longResp (.ok priceDoc))).htmlContent = none ∧
    ((mainRecord okInput (.response err500Resp (.error ()))).price = none ∧
      ((mainRecord okInput (.response err500Resp (.error ()))).pageExists = true ∨
        ((mainRecord okInput (.response err500Resp (.error ()))).success = false ∧
          ∃ s, (mainRecord okInput (.response err500Resp (.error ()))).statusCode = some s ∧
            400 ≤ s))) :=
  ⟨(record_invariant_amended okInput (.response longResp (.ok priceDoc))).1 (by decide),
   (record_invariant_amended okInput (.response err500Resp (.error ()))).2 "oops" (by decide)⟩

/-- Claim C10: on every branch, `success` holds exactly when `page_exists`
holds, `success` holds exactly when the error field is absent, and every
failure record carries a non-empty error message. -/
theorem success_error_page_invariant (input : ActorInput) (ev : FetchEvent) :
    ((mainRecord input ev).success = true ↔ (mainRecord input ev).pageExists = true) ∧
    ((mainRecord input ev).success = true ↔ (mainRecord input ev).error = none) ∧
    ((mainRecord input ev).success = false →
      ∃ e, (mainRecord input ev).error = some e ∧ e ≠ "") := by
  rcases hin : input.url with _ | u
  · refine ⟨by simp [mainRecord, hin, recordMissingUrl],
      by simp [mainRecord, hin, recordMissingUrl],
      fun _ => ⟨"Missing \"url\" attribute in input!",
        by simp [mainRecord, hin, recordMissingUrl], by decide⟩⟩
  · by_cases hu : u = ""
    · refine ⟨by simp [mainRecord, hin, hu, recordMissingUrl],
        by simp [mainRecord, hin, hu, recordMissingUrl],
        fun _ => ⟨"Missing \"url\" attribute in input!",
          by simp [mainRecord, hin, hu, recordMissingUrl], by decide⟩⟩
    · have hm : ∀ e, mainRecord input e = processEvent input u e := by
        intro e
        simp [mainRecord, hin, hu]
      rw [hm]
      cases ev with
      | timeoutExc =>
        refine ⟨by simp [processEvent, recordTimeout],
          by simp [processEvent, recordTimeout],
          fun _ => ⟨"Request timeout after " ++ toString input.timeout ++ " seconds",
            by simp [processEvent, recordTimeout],
            append_ne_empty _ _ (data_ne_nil_append _ _ (by decide))⟩⟩
      | httpErrorExc d c =>
        refine ⟨by simp [processEvent, recordHttpError],
          by simp [processEvent, recordHttpError],
          fun _ => ⟨"HTTP error occurred: " ++ d,
            by simp [processEvent, recordHttpError],
            append_ne_empty _ _ (by decide)⟩⟩
      | unexpectedExc d =>
        refine ⟨by simp [processEvent, recordUnexpected],
          by simp [processEvent, recordUnexpected],
          fun _ => ⟨"Unexpected error occurred: " ++ d,
            by simp [processEvent, recordUnexpected],
            append_ne_empty _ _ (by decide)⟩⟩
      | response resp doc =>
        have hp : processEvent input u (FetchEvent.response resp doc) =
            processResponse u resp doc := rfl
        rw [hp]
        unfold processResponse
        split
        · refine ⟨by simp [record404], by simp [record404],
            fun _ => ⟨"Page not found (404)", by simp [record404], by decide⟩⟩
        · split
          · refine ⟨by simp [recordBlocked], by simp [recordBlocked],
              fun _ => ⟨"Page unavailable (HTTP " ++ toString resp.statusCode ++ ")",
                by simp [recordBlocked],
                append_ne_empty _ _ (data_ne_nil_append _ _ (by decide))⟩⟩
          · split
            · refine ⟨by simp [recordGenericError], by simp [recordGenericError],
                fun _ => ⟨"Client/Server error (HTTP " ++ toString resp.statusCode ++ ")",
                  by simp [recordGenericError],
                  append_ne_empty _ _ (data_ne_nil_append _ _ (by decide))⟩⟩
            · split
              · refine ⟨by simp [recordNotFoundContent], by simp [recordNotFoundContent],
                  fun _ => ⟨"Page not found or unavailable (detected from content)",
                    by simp [recordNotFoundContent], by decide⟩⟩
              · rcases hext : extract_price_from_html doc with _ | p
                · simp [hext, recordContent]
                · by_cases hpe : p = "" <;>
                    simp [hext, hpe, recordContent, recordPrice]

/-- Witness for claim C10 at a timed-out invocation: the failure record
carries a non-empty error message. -/
theorem success_error_page_invariant_witness :
    ∃ e, (mainRecord okInput .timeoutExc).error = some e ∧ e ≠ "" :=
  (success_error_page_invariant okInput .timeoutExc).2.2 (by decide)
